import Mathlib

/-!
Verification development for the GST invoicing and inventory backend.

Numbers that the TypeScript source manipulates as JavaScript numbers are
modelled as exact rationals; all monetary values in the claims are exactly
representable, so the algebraic content of each computation is preserved.

The repository carries two revisions of several route handlers.  The
revision stored at the canonical path is embedded with a name built from
the path, and the revision stored under src/unnamed is embedded with a
name built from its part number.
-/

/-- Request line item of POST /api/invoices: fields quantity, rate and
gst_rate of each element of the items array. -/
structure InvoiceItem where
  quantity : ℚ
  rate : ℚ
  gst_rate : ℚ
deriving Repr, DecidableEq

/-- Interstate determination shared by both revisions of POST /api/invoices:
isInterState = sellerStateCode !== buyerStateCode
(src/app/api/invoices/route.ts line 217, src/unnamed/part_004 line 192). -/
def isInterState (sellerStateCode buyerStateCode : String) : Bool :=
  sellerStateCode != buyerStateCode

/-- Per-line amounts as accumulated by the grand-total loop of a POST
/api/invoices revision. -/
structure LineAmounts where
  taxableAmount : ℚ
  cgstAmt : ℚ
  sgstAmt : ℚ
  igstAmt : ℚ
  totalAmount : ℚ
deriving Repr, DecidableEq

/-- Header-loop line amounts of src/app/api/invoices/route.ts lines 225-240:
cgstAmt and sgstAmt are set only in the intrastate branch; no IGST variable
exists in this revision (the response reports igst_amount as 0), and
totalAmount = taxableAmount + cgstAmt + sgstAmt. -/
def routeHeaderLine (inter : Bool) (item : InvoiceItem) : LineAmounts :=
  let taxableAmount := item.quantity * item.rate
  let cgstAmt := if inter then 0 else taxableAmount * item.gst_rate / 200
  let sgstAmt := if inter then 0 else taxableAmount * item.gst_rate / 200
  { taxableAmount := taxableAmount
    cgstAmt := cgstAmt
    sgstAmt := sgstAmt
    igstAmt := 0
    totalAmount := taxableAmount + cgstAmt + sgstAmt }

/-- Header-loop line amounts of src/unnamed/part_004 lines 201-219: the
interstate branch sets igstAmt = taxableAmount * gst_rate / 100, the
intrastate branch sets cgstAmt = sgstAmt = taxableAmount * gst_rate / 200,
and totalAmount sums taxable plus all three taxes. -/
def part004HeaderLine (inter : Bool) (item : InvoiceItem) : LineAmounts :=
  let taxableAmount := item.quantity * item.rate
  let igstAmt := if inter then taxableAmount * item.gst_rate / 100 else 0
  let cgstAmt := if inter then 0 else taxableAmount * item.gst_rate / 200
  let sgstAmt := if inter then 0 else taxableAmount * item.gst_rate / 200
  { taxableAmount := taxableAmount
    cgstAmt := cgstAmt
    sgstAmt := sgstAmt
    igstAmt := igstAmt
    totalAmount := taxableAmount + cgstAmt + sgstAmt + igstAmt }

/-- Row of tax_invoice_details as inserted by the detail loop of a POST
/api/invoices revision. -/
structure DetailRow where
  taxable_amt : ℚ
  cgst_rate : ℚ
  cgst_amt : ℚ
  sgst_rate : ℚ
  sgst_amt : ℚ
  igst_rate : ℚ
  igst_amount : ℚ
  total_amount : ℚ
deriving Repr, DecidableEq

/-- Detail-loop row of src/app/api/invoices/route.ts lines 261-287: in the
intrastate branch cgstRate = sgstRate = gst_rate / 2 and the amounts are
taxableAmount * rate / 100; this revision inserts no IGST column. -/
def routeDetailRow (inter : Bool) (item : InvoiceItem) : DetailRow :=
  let taxableAmount := item.quantity * item.rate
  let cgstRate := if inter then 0 else item.gst_rate / 2
  let sgstRate := if inter then 0 else item.gst_rate / 2
  let cgstAmt := if inter then 0 else taxableAmount * (item.gst_rate / 2) / 100
  let sgstAmt := if inter then 0 else taxableAmount * (item.gst_rate / 2) / 100
  { taxable_amt := taxableAmount
    cgst_rate := cgstRate
    cgst_amt := cgstAmt
    sgst_rate := sgstRate
    sgst_amt := sgstAmt
    igst_rate := 0
    igst_amount := 0
    total_amount := taxableAmount + cgstAmt + sgstAmt }

/-- Detail-loop row of src/unnamed/part_004 lines 260-290: the interstate
branch sets igstRate = gst_rate and igstAmt = taxableAmount * igstRate / 100,
the intrastate branch mirrors the route.ts detail loop. -/
def part004DetailRow (inter : Bool) (item : InvoiceItem) : DetailRow :=
  let taxableAmount := item.quantity * item.rate
  let igstRate := if inter then item.gst_rate else 0
  let igstAmt := if inter then taxableAmount * item.gst_rate / 100 else 0
  let cgstRate := if inter then 0 else item.gst_rate / 2
  let sgstRate := if inter then 0 else item.gst_rate / 2
  let cgstAmt := if inter then 0 else taxableAmount * (item.gst_rate / 2) / 100
  let sgstAmt := if inter then 0 else taxableAmount * (item.gst_rate / 2) / 100
  { taxable_amt := taxableAmount
    cgst_rate := cgstRate
    cgst_amt := cgstAmt
    sgst_rate := sgstRate
    sgst_amt := sgstAmt
    igst_rate := igstRate
    igst_amount := igstAmt
    total_amount := taxableAmount + cgstAmt + sgstAmt + igstAmt }

/-- Accumulators of the grand-total loop of src/app/api/invoices/route.ts
lines 220-223; this revision keeps no IGST accumulator. -/
structure RouteTotals where
  grandTotalTaxableAmt : ℚ
  grandTotalCgstAmt : ℚ
  grandTotalSgstAmt : ℚ
  grandTotalAmt : ℚ
deriving Repr, DecidableEq

/-- One iteration of the grand-total loop of src/app/api/invoices/route.ts
lines 225-240, adding the per-item amounts into the four accumulators. -/
def routeTotalsStep (inter : Bool) (acc : RouteTotals) (item : InvoiceItem) : RouteTotals :=
  let l := routeHeaderLine inter item
  { grandTotalTaxableAmt := acc.grandTotalTaxableAmt + l.taxableAmount
    grandTotalCgstAmt := acc.grandTotalCgstAmt + l.cgstAmt
    grandTotalSgstAmt := acc.grandTotalSgstAmt + l.sgstAmt
    grandTotalAmt := acc.grandTotalAmt + l.totalAmount }

/-- Grand-total loop of src/app/api/invoices/route.ts lines 220-240,
starting from zeroed accumulators. -/
def routeGrandTotals (inter : Bool) (items : List InvoiceItem) : RouteTotals :=
  items.foldl (routeTotalsStep inter)
    { grandTotalTaxableAmt := 0
      grandTotalCgstAmt := 0
      grandTotalSgstAmt := 0
      grandTotalAmt := 0 }

/-- Accumulators of the grand-total loop of src/unnamed/part_004
lines 195-199, including the IGST accumulator. -/
structure Part004Totals where
  grandTotalTaxableAmt : ℚ
  grandTotalCgstAmt : ℚ
  grandTotalSgstAmt : ℚ
  grandTotalIgstAmt : ℚ
  grandTotalAmt : ℚ
deriving Repr, DecidableEq

/-- One iteration of the grand-total loop of src/unnamed/part_004
lines 201-219. -/
def part004TotalsStep (inter : Bool) (acc : Part004Totals) (item : InvoiceItem) : Part004Totals :=
  let l := part004HeaderLine inter item
  { grandTotalTaxableAmt := acc.grandTotalTaxableAmt + l.taxableAmount
    grandTotalCgstAmt := acc.grandTotalCgstAmt + l.cgstAmt
    grandTotalSgstAmt := acc.grandTotalSgstAmt + l.sgstAmt
    grandTotalIgstAmt := acc.grandTotalIgstAmt + l.igstAmt
    grandTotalAmt := acc.grandTotalAmt + l.totalAmount }

/-- Grand-total loop of src/unnamed/part_004 lines 195-219, starting from
zeroed accumulators. -/
def part004GrandTotals (inter : Bool) (items : List InvoiceItem) : Part004Totals :=
  items.foldl (part004TotalsStep inter)
    { grandTotalTaxableAmt := 0
      grandTotalCgstAmt := 0
      grandTotalSgstAmt := 0
      grandTotalIgstAmt := 0
      grandTotalAmt := 0 }

/-- Table godown_stock, keyed by (godown_id, raw_material_id); a lookup
models the queryFirst on that key and returns the quantity column of the
row when one exists. -/
def GodownStockTable : Type := Nat → Nat → Option ℚ

/-- Single-row write to godown_stock for the key (g, m). -/
def updateStock (stock : GodownStockTable) (g m : Nat) (q : ℚ) : GodownStockTable :=
  fun g2 m2 => if g2 = g ∧ m2 = m then some q else stock g2 m2

/-- Response of POST /api/stock: an error with HTTP status and message, or
a success carrying the stored quantity that the handler reads back. -/
inductive StockResp where
  | err (status : Nat) (msg : String)
  | ok (quantity : ℚ)
deriving Repr, DecidableEq

/-- POST /api/stock handler body from src/app/api/stock/route.ts
lines 149-256, after authentication: the truthiness guard on the three
body fields, the positivity guard, the master-table existence checks, and
the add / subtract / set branches against the godown_stock row. Arguments
godownExists and materialExists model the master_godown and
master_raw_material lookups. -/
def stockPost (godownExists materialExists : Nat → Bool) (stock : GodownStockTable)
    (godown_id raw_material_id : Nat) (quantity : ℚ) (operation : String) :
    StockResp × GodownStockTable :=
  if godown_id = 0 ∨ raw_material_id = 0 ∨ quantity = 0 then
    (.err 400 ("Missing required fields"), stock)
  else if quantity ≤ 0 then
    (.err 400 ("Quantity must be greater than 0"), stock)
  else if !godownExists godown_id then
    (.err 404 ("Godown not found"), stock)
  else if !materialExists raw_material_id then
    (.err 404 ("Raw material not found"), stock)
  else
    match stock godown_id raw_material_id with
    | some currentQuantity =>
      if operation = "add" then
        let newQuantity := currentQuantity + quantity
        (.ok newQuantity, updateStock stock godown_id raw_material_id newQuantity)
      else if operation = "subtract" then
        let newQuantity := currentQuantity - quantity
        if newQuantity < 0 then
          (.err 400 ("Insufficient stock"), stock)
        else
          (.ok newQuantity, updateStock stock godown_id raw_material_id newQuantity)
      else
        (.ok quantity, updateStock stock godown_id raw_material_id quantity)
    | none =>
      if operation = "subtract" then
        (.err 400 ("Cannot subtract from non-existent stock"), stock)
      else
        (.ok quantity, updateStock stock godown_id raw_material_id quantity)

/-- Audit rows written by the transfer branch of POST /api/stock/movements:
the raw_material_stockout header keeps the source godown and the
raw_material_stockout_details row keeps the material and quantity. -/
structure StockoutRow where
  godown_id : Nat
  raw_material_id : Nat
  raw_material_quantity : ℚ
deriving Repr, DecidableEq

/-- Response of POST /api/stock/movements. -/
inductive MovementResp where
  | err (status : Nat) (msg : String)
  | ok (msg : String)
deriving Repr, DecidableEq

/-- POST /api/stock/movements handler body from
src/app/api/stock/movements/route.ts lines 174-296, after authentication:
body guards, then the transfer branch (same-godown check, source lookup
and availability check, decrement of the source row, increment or insert
of the destination row, and the synthetic stockout audit rows), then the
adjustment / damage / manual branch, and the fall-through success response
for any other movement type. The third component of the result collects
the audit rows inserted into the stockout tables. -/
def movementsPost (stock : GodownStockTable) (movement_type : String)
    (raw_material_id from_godown_id to_godown_id : Nat) (quantity : ℚ) :
    MovementResp × GodownStockTable × List StockoutRow :=
  if movement_type = "" ∨ raw_material_id = 0 ∨ quantity = 0 then
    (.err 400 ("Missing required fields"), stock, [])
  else if quantity ≤ 0 then
    (.err 400 ("Quantity must be greater than 0"), stock, [])
  else if movement_type = "transfer" then
    if from_godown_id = 0 ∨ to_godown_id = 0 then
      (.err 400 ("Both source and destination godowns required for transfer"), stock, [])
    else if from_godown_id = to_godown_id then
      (.err 400 ("Source and destination godowns cannot be the same"), stock, [])
    else
      match stock from_godown_id raw_material_id with
      | none => (.err 400 ("Insufficient stock in source godown"), stock, [])
      | some sourceQty =>
        if sourceQty < quantity then
          (.err 400 ("Insufficient stock in source godown"), stock, [])
        else
          let stock1 := updateStock stock from_godown_id raw_material_id (sourceQty - quantity)
          let stock2 :=
            match stock1 to_godown_id raw_material_id with
            | some destQty => updateStock stock1 to_godown_id raw_material_id (destQty + quantity)
            | none => updateStock stock1 to_godown_id raw_material_id quantity
          (.ok ("transfer completed successfully"), stock2,
            [{ godown_id := from_godown_id
               raw_material_id := raw_material_id
               raw_material_quantity := quantity }])
  else if movement_type = "adjustment" ∨ movement_type = "damage" ∨ movement_type = "manual" then
    let godown_id := if from_godown_id ≠ 0 then from_godown_id else to_godown_id
    if godown_id = 0 then
      (.err 400 ("Godown ID is required"), stock, [])
    else
      match stock godown_id raw_material_id with
      | some existingQty =>
        let newQuantity := existingQty + (if movement_type = "damage" then -quantity else quantity)
        if newQuantity < 0 then
          (.err 400 ("Adjustment would result in negative stock"), stock, [])
        else
          (.ok (movement_type ++ " completed successfully"),
            updateStock stock godown_id raw_material_id newQuantity, [])
      | none =>
        if movement_type = "damage" then
          (.err 400 ("Cannot reduce stock for non-existent item"), stock, [])
        else
          (.ok (movement_type ++ " completed successfully"),
            updateStock stock godown_id raw_material_id quantity, [])
  else
    (.ok (movement_type ++ " completed successfully"), stock, [])

/-- Fields of the tax_invoice row read by DELETE /api/invoices/[id]/einvoice
(src/unnamed/part_002 lines 318-321); a NULL irn_no is modelled as the
empty string, which the truthiness guard treats the same way. -/
structure TaxInvoiceRow where
  irn_no : String
  status : String
deriving Repr, DecidableEq

/-- Outcome of the cancel handler up to the point where the external GST
API would be contacted: either a rejection response, or an attempt to call
cancelEInvoice with the stored IRN. -/
inductive CancelOutcome where
  | err (status : Nat) (msg : String)
  | attemptCancel (irn : String)
deriving Repr, DecidableEq

/-- DELETE /api/invoices/[id]/einvoice guard chain from
src/unnamed/part_002 lines 317-355: missing invoice, missing IRN, already
cancelled, and otherwise the external cancel attempt. The second component
is the tax_invoice row after the guards run; no guard writes to it. -/
def einvoiceDelete (invoice : Option TaxInvoiceRow) : CancelOutcome × Option TaxInvoiceRow :=
  match invoice with
  | none => (.err 404 ("Invoice not found"), none)
  | some inv =>
    if inv.irn_no = "" then
      (.err 400 ("Cannot cancel invoice without IRN"), some inv)
    else if inv.status = "cancelled" then
      (.err 400 ("Invoice already cancelled"), some inv)
    else
      (.attemptCancel inv.irn_no, some inv)

/-- Input data that the guards of a POST /api/invoices/[id]/einvoice
revision inspect before contacting the external API: whether the invoice
lookup (restricted to draft or generated status) found a row, its grand
total, the number of tax_invoice_details rows, which gst_settings keys are
present, and whether gst_api_enabled is the string 1. -/
structure GenInput where
  invoiceFound : Bool
  grand_total_amt : ℚ
  itemsCount : Nat
  settingsPresent : String → Bool
  gst_api_enabled : Bool

/-- Outcome of a generate-guard chain: a rejection response, or control
reaching the external submission attempt. -/
inductive GenOutcome where
  | err (status : Nat) (msg : String)
  | proceed
deriving Repr, DecidableEq

/-- Settings keys required by src/unnamed/part_002 lines 105-108. -/
def requiredSettings : List String :=
  ["company_gstin", "company_legal_name", "company_address1",
   "company_location", "company_pin_code", "company_state_code"]

/-- POST /api/invoices/[id]/einvoice guard chain of src/unnamed/part_002
lines 31-123: invoice lookup, the 50,000 threshold on grand_total_amt,
the empty-items check, the required-settings loop, and the
gst_api_enabled flag. -/
def part002GeneratePost (inp : GenInput) : GenOutcome :=
  if !inp.invoiceFound then
    .err 404 ("Invoice not found or already submitted")
  else if inp.grand_total_amt < 50000 then
    .err 400 ("E-Invoice not required for amounts below ₹50,000")
  else if inp.itemsCount = 0 then
    .err 400 ("No invoice items found")
  else
    match requiredSettings.find? (fun k => !inp.settingsPresent k) with
    | some k => .err 400 ("Missing GST setting: " ++ k)
    | none =>
      if !inp.gst_api_enabled then
        .err 400 ("GST API integration is not enabled")
      else
        .proceed

/-- POST /api/invoices/[id]/einvoice guard chain of
src/app/api/invoices/[id]/einvoice/route.ts lines 27-128: invoice lookup
and the two-key settings check; this revision has no threshold check and
no empty-items check before building the payload. -/
def einvoiceRouteGeneratePost (inp : GenInput) : GenOutcome :=
  if !inp.invoiceFound then
    .err 404 ("Invoice not found or already submitted")
  else if !inp.settingsPresent ("company_gstin") ∨ !inp.settingsPresent ("company_legal_name") then
    .err 400 ("Company GST settings not configured properly")
  else
    .proceed

/-- Token cache of GSTEInvoiceAPI (src/lib/gst-api.ts lines 203-204):
the optional accessToken and tokenExpiry fields of the client instance. -/
structure GSTEInvoiceAPIState where
  accessToken : Option String
  tokenExpiry : Option Int
deriving Repr, DecidableEq

/-- Provider response to the external authenticate call
(access_token and expires_in, seconds). -/
structure GSTAuthResponse where
  access_token : String
  expires_in : Int
deriving Repr, DecidableEq

/-- Truthiness guard of authenticate (src/lib/gst-api.ts line 216):
this.accessToken and this.tokenExpiry truthy, and Date.now() before the
stored expiry. An empty token string and a zero expiry are falsy. -/
def cachedTokenValid (s : GSTEInvoiceAPIState) (now : Int) : Bool :=
  match s.accessToken, s.tokenExpiry with
  | some t, some e => t != "" && e != 0 && now < e
  | _, _ => false

/-- One call to authenticate (src/lib/gst-api.ts lines 215-246) at time
now, with resp the response the provider would return if contacted. The
Bool records whether the external authentication request was made; on a
fresh authentication the expiry is Date.now() plus expires_in seconds in
milliseconds minus the 60000 ms buffer. -/
def authenticate (s : GSTEInvoiceAPIState) (now : Int) (resp : GSTAuthResponse) :
    GSTEInvoiceAPIState × Bool :=
  if cachedTokenValid s now then
    (s, false)
  else
    ({ accessToken := some resp.access_token
       tokenExpiry := some (now + resp.expires_in * 1000 - 60000) }, true)

/-- User value consumed by the hasPermission revision bundled in
src/lib/gst-api.ts (interface User of that bundle). -/
structure GstApiUser where
  id : Nat
  username : String
  role : String
  permissions : List String
deriving Repr, DecidableEq

/-- Action argument of both hasPermission revisions. -/
inductive PermAction where
  | read
  | write
  | delete
deriving Repr, DecidableEq

/-- hasPermission revision bundled in src/lib/gst-api.ts lines 530-540:
admin always allowed; manager allowed for non-delete actions on SALES,
INVENTORY and REPORTS; any other role allowed only to read SALES. -/
def hasPermission (user : GstApiUser) (module : String) (action : PermAction) : Bool :=
  if user.role = "admin" then
    true
  else if user.role = "manager" then
    action != .delete && ["SALES", "INVENTORY", "REPORTS"].contains module
  else
    action == .read && module == "SALES"

/-- Per-department grant of src/lib/auth.ts (JWTPayload.permissions). -/
structure DeptPermission where
  departmentId : Nat
  departmentCode : String
  canRead : Bool
  canWrite : Bool
  canDelete : Bool
deriving Repr, DecidableEq

/-- Payload consumed by the hasPermission revision in src/lib/auth.ts. -/
structure JWTPayload where
  userId : Nat
  username : String
  fullName : String
  permissions : List DeptPermission
deriving Repr, DecidableEq

/-- hasPermission revision of src/lib/auth.ts lines 84-94: finds the
grant for the department code and returns its per-action flag. -/
def authHasPermission (user : JWTPayload) (departmentCode : String) (action : PermAction) : Bool :=
  match user.permissions.find? (fun p => p.departmentCode == departmentCode) with
  | none => false
  | some p =>
    match action with
    | .read => p.canRead
    | .write => p.canWrite
    | .delete => p.canDelete

/-- Per-item agreement between the header loop and the detail loop of
src/app/api/invoices/route.ts: the detail formula taxable * (rate / 2) / 100
coincides with the header formula taxable * rate / 200 in exact arithmetic,
for every branch. -/
theorem routeDetail_agrees_header (inter : Bool) (item : InvoiceItem) :
    (routeDetailRow inter item).taxable_amt = (routeHeaderLine inter item).taxableAmount
  ∧ (routeDetailRow inter item).cgst_amt = (routeHeaderLine inter item).cgstAmt
  ∧ (routeDetailRow inter item).sgst_amt = (routeHeaderLine inter item).sgstAmt
  ∧ (routeDetailRow inter item).igst_amount = (routeHeaderLine inter item).igstAmt
  ∧ (routeDetailRow inter item).total_amount = (routeHeaderLine inter item).totalAmount := by
  cases inter <;> simp [routeDetailRow, routeHeaderLine] <;> ring_nf <;> norm_num <;> ring

/-- Per-item agreement between the header loop and the detail loop of
src/unnamed/part_004. -/
theorem part004Detail_agrees_header (inter : Bool) (item : InvoiceItem) :
    (part004DetailRow inter item).taxable_amt = (part004HeaderLine inter item).taxableAmount
  ∧ (part004DetailRow inter item).cgst_amt = (part004HeaderLine inter item).cgstAmt
  ∧ (part004DetailRow inter item).sgst_amt = (part004HeaderLine inter item).sgstAmt
  ∧ (part004DetailRow inter item).igst_amount = (part004HeaderLine inter item).igstAmt
  ∧ (part004DetailRow inter item).total_amount = (part004HeaderLine inter item).totalAmount := by
  cases inter <;> simp [part004DetailRow, part004HeaderLine] <;> ring_nf <;> norm_num <;> ring

/-- Claim C1 counterexample: at the concrete interstate input of the claim
(seller state 27, buyer state 19, item quantity 10, rate 100, gst_rate 18),
the POST /api/invoices revision at src/app/api/invoices/route.ts produces
no IGST (it keeps no IGST amount; the response reports 0) and a line total
of 1000, not the igst = 180 and total = 1180 that the claim asserts for
every invoice created via POST /api/invoices. -/
theorem claim1_counterexample :
    isInterState ("27") "19" = true
  ∧ (routeHeaderLine (isInterState ("27") "19") ⟨10, 100, 18⟩).igstAmt = 0
  ∧ (routeHeaderLine (isInterState ("27") "19") ⟨10, 100, 18⟩).totalAmount = 1000
  ∧ (routeDetailRow (isInterState ("27") "19") ⟨10, 100, 18⟩).igst_amount = 0
  ∧ (routeDetailRow (isInterState ("27") "19") ⟨10, 100, 18⟩).total_amount = 1000
  ∧ ¬((routeHeaderLine (isInterState ("27") "19") ⟨10, 100, 18⟩).igstAmt = 180
      ∧ (routeHeaderLine (isInterState ("27") "19") ⟨10, 100, 18⟩).totalAmount = 1180) := by
  have h : isInterState ("27") "19" = true := by decide
  rw [h]
  refine ⟨rfl, ?_, ?_, ?_, ?_, ?_⟩
  · norm_num [routeHeaderLine]
  · norm_num [routeHeaderLine]
  · norm_num [routeDetailRow]
  · norm_num [routeDetailRow]
  · rintro ⟨h1, -⟩
    norm_num [routeHeaderLine] at h1

/-- Claim C1, amended: in the POST /api/invoices revision at
src/unnamed/part_004, every interstate line item gets
igst = taxable * gst_rate / 100 with cgst = sgst = 0 and
total = taxable + igst, in the grand-total loop and in the persisted
tax_invoice_details row alike; in the revision at
src/app/api/invoices/route.ts no IGST is computed at all, and an
interstate line item gets cgst = sgst = 0 with total = taxable only. -/
theorem claim1_amended (s b : String) (item : InvoiceItem)
    (h : isInterState s b = true) :
    (part004HeaderLine (isInterState s b) item).taxableAmount = item.quantity * item.rate
  ∧ (part004HeaderLine (isInterState s b) item).igstAmt
      = item.quantity * item.rate * item.gst_rate / 100
  ∧ (part004HeaderLine (isInterState s b) item).cgstAmt = 0
  ∧ (part004HeaderLine (isInterState s b) item).sgstAmt = 0
  ∧ (part004HeaderLine (isInterState s b) item).totalAmount
      = item.quantity * item.rate + (part004HeaderLine (isInterState s b) item).igstAmt
  ∧ (part004DetailRow (isInterState s b) item).igst_amount
      = item.quantity * item.rate * item.gst_rate / 100
  ∧ (part004DetailRow (isInterState s b) item).cgst_amt = 0
  ∧ (part004DetailRow (isInterState s b) item).sgst_amt = 0
  ∧ (part004DetailRow (isInterState s b) item).total_amount
      = item.quantity * item.rate + (part004DetailRow (isInterState s b) item).igst_amount
  ∧ (routeHeaderLine (isInterState s b) item).cgstAmt = 0
  ∧ (routeHeaderLine (isInterState s b) item).sgstAmt = 0
  ∧ (routeHeaderLine (isInterState s b) item).igstAmt = 0
  ∧ (routeHeaderLine (isInterState s b) item).totalAmount = item.quantity * item.rate := by
  rw [h]
  refine ⟨?_, ?_, ?_, ?_, ?_, ?_, ?_, ?_, ?_, ?_, ?_, ?_, ?_⟩ <;>
    simp [part004HeaderLine, part004DetailRow, routeHeaderLine]

/-- Claim C1 witness: the amended statement evaluated at the concrete
input of the claim, giving taxable 1000, igst 180 and total 1180 in the
part_004 revision. -/
theorem claim1_witness :
    (part004HeaderLine (isInterState ("27") "19") ⟨10, 100, 18⟩).taxableAmount = 1000
  ∧ (part004HeaderLine (isInterState ("27") "19") ⟨10, 100, 18⟩).igstAmt = 180
  ∧ (part004HeaderLine (isInterState ("27") "19") ⟨10, 100, 18⟩).cgstAmt = 0
  ∧ (part004HeaderLine (isInterState ("27") "19") ⟨10, 100, 18⟩).sgstAmt = 0
  ∧ (part004HeaderLine (isInterState ("27") "19") ⟨10, 100, 18⟩).totalAmount = 1180 := by
  have h := claim1_amended ("27") "19" ⟨10, 100, 18⟩ (by decide)
  obtain ⟨ht, hi, hc, hs, htot, -⟩ := h
  refine ⟨?_, ?_, hc, hs, ?_⟩
  · rw [ht]; norm_num
  · rw [hi]; norm_num
  · rw [htot, hi]; norm_num

/-- Claim C2: for every intrastate invoice (equal seller and buyer state
codes), in both POST /api/invoices revisions and in both the grand-total
loop and the persisted detail row, cgst = sgst = taxable * gst_rate / 200,
igst is 0, and the line total is taxable + cgst + sgst. -/
theorem claim2_intrastate (s b : String) (item : InvoiceItem)
    (h : isInterState s b = false) :
    (routeHeaderLine (isInterState s b) item).cgstAmt
        = (routeHeaderLine (isInterState s b) item).sgstAmt
  ∧ (routeHeaderLine (isInterState s b) item).cgstAmt
        = item.quantity * item.rate * item.gst_rate / 200
  ∧ (routeHeaderLine (isInterState s b) item).igstAmt = 0
  ∧ (routeHeaderLine (isInterState s b) item).totalAmount
        = item.quantity * item.rate
          + (routeHeaderLine (isInterState s b) item).cgstAmt
          + (routeHeaderLine (isInterState s b) item).sgstAmt
  ∧ (part004HeaderLine (isInterState s b) item).cgstAmt
        = (part004HeaderLine (isInterState s b) item).sgstAmt
  ∧ (part004HeaderLine (isInterState s b) item).cgstAmt
        = item.quantity * item.rate * item.gst_rate / 200
  ∧ (part004HeaderLine (isInterState s b) item).igstAmt = 0
  ∧ (part004HeaderLine (isInterState s b) item).totalAmount
        = item.quantity * item.rate
          + (part004HeaderLine (isInterState s b) item).cgstAmt
          + (part004HeaderLine (isInterState s b) item).sgstAmt
  ∧ (routeDetailRow (isInterState s b) item).cgst_amt
        = (routeDetailRow (isInterState s b) item).sgst_amt
  ∧ (routeDetailRow (isInterState s b) item).cgst_amt
        = item.quantity * item.rate * item.gst_rate / 200
  ∧ (routeDetailRow (isInterState s b) item).igst_amount = 0
  ∧ (routeDetailRow (isInterState s b) item).total_amount
        = item.quantity * item.rate
          + (routeDetailRow (isInterState s b) item).cgst_amt
          + (routeDetailRow (isInterState s b) item).sgst_amt
  ∧ (part004DetailRow (isInterState s b) item).cgst_amt
        = (part004DetailRow (isInterState s b) item).sgst_amt
  ∧ (part004DetailRow (isInterState s b) item).cgst_amt
        = item.quantity * item.rate * item.gst_rate / 200
  ∧ (part004DetailRow (isInterState s b) item).igst_amount = 0
  ∧ (part004DetailRow (isInterState s b) item).total_amount
        = item.quantity * item.rate
          + (part004DetailRow (isInterState s b) item).cgst_amt
          + (part004DetailRow (isInterState s b) item).sgst_amt := by
  rw [h]
  refine ⟨?_, ?_, ?_, ?_, ?_, ?_, ?_, ?_, ?_, ?_, ?_, ?_, ?_, ?_, ?_, ?_⟩ <;>
    (simp [routeHeaderLine, part004HeaderLine, routeDetailRow, part004DetailRow]; try ring)

/-- Claim C2 witness: the intrastate statement evaluated at seller state
27, buyer state 27, item quantity 10, rate 100, gst_rate 18, giving
taxable 1000, cgst = sgst = 90, igst 0, total 1180. -/
theorem claim2_witness :
    (routeHeaderLine (isInterState ("27") "27") ⟨10, 100, 18⟩).cgstAmt = 90
  ∧ (routeHeaderLine (isInterState ("27") "27") ⟨10, 100, 18⟩).sgstAmt = 90
  ∧ (routeHeaderLine (isInterState ("27") "27") ⟨10, 100, 18⟩).igstAmt = 0
  ∧ (routeHeaderLine (isInterState ("27") "27") ⟨10, 100, 18⟩).totalAmount = 1180
  ∧ (part004HeaderLine (isInterState ("27") "27") ⟨10, 100, 18⟩).cgstAmt = 90
  ∧ (part004HeaderLine (isInterState ("27") "27") ⟨10, 100, 18⟩).totalAmount = 1180 := by
  have h := claim2_intrastate ("27") "27" ⟨10, 100, 18⟩ (by decide)
  obtain ⟨hrs, hrc, hri, hrt, hps, hpc, hpi, hpt, -⟩ := h
  have hc90 : (routeHeaderLine (isInterState ("27") "27") ⟨10, 100, 18⟩).cgstAmt = 90 := by
    rw [hrc]; norm_num
  have hpc90 : (part004HeaderLine (isInterState ("27") "27") ⟨10, 100, 18⟩).cgstAmt = 90 := by
    rw [hpc]; norm_num
  refine ⟨hc90, ?_, hri, ?_, hpc90, ?_⟩
  · rw [← hrs, hc90]
  · rw [hrt, ← hrs, hc90]; norm_num
  · rw [hpt, ← hps, hpc90]; norm_num

/-- Folding the route.ts grand-total step from any accumulator adds the
per-item sums componentwise. -/
theorem routeTotals_foldl (inter : Bool) (items : List InvoiceItem) (acc : RouteTotals) :
    items.foldl (routeTotalsStep inter) acc =
      { grandTotalTaxableAmt := acc.grandTotalTaxableAmt
          + (items.map (fun it => (routeHeaderLine inter it).taxableAmount)).sum
        grandTotalCgstAmt := acc.grandTotalCgstAmt
          + (items.map (fun it => (routeHeaderLine inter it).cgstAmt)).sum
        grandTotalSgstAmt := acc.grandTotalSgstAmt
          + (items.map (fun it => (routeHeaderLine inter it).sgstAmt)).sum
        grandTotalAmt := acc.grandTotalAmt
          + (items.map (fun it => (routeHeaderLine inter it).totalAmount)).sum } := by
  induction items generalizing acc with
  | nil => simp
  | cons x xs ih =>
    rw [List.foldl_cons, ih]
    simp only [List.map_cons, List.sum_cons, routeTotalsStep, RouteTotals.mk.injEq]
    refine ⟨by ring, by ring, by ring, by ring⟩

/-- Folding the part_004 grand-total step from any accumulator adds the
per-item sums componentwise. -/
theorem part004Totals_foldl (inter : Bool) (items : List InvoiceItem) (acc : Part004Totals) :
    items.foldl (part004TotalsStep inter) acc =
      { grandTotalTaxableAmt := acc.grandTotalTaxableAmt
          + (items.map (fun it => (part004HeaderLine inter it).taxableAmount)).sum
        grandTotalCgstAmt := acc.grandTotalCgstAmt
          + (items.map (fun it => (part004HeaderLine inter it).cgstAmt)).sum
        grandTotalSgstAmt := acc.grandTotalSgstAmt
          + (items.map (fun it => (part004HeaderLine inter it).sgstAmt)).sum
        grandTotalIgstAmt := acc.grandTotalIgstAmt
          + (items.map (fun it => (part004HeaderLine inter it).igstAmt)).sum
        grandTotalAmt := acc.grandTotalAmt
          + (items.map (fun it => (part004HeaderLine inter it).totalAmount)).sum } := by
  induction items generalizing acc with
  | nil => simp
  | cons x xs ih =>
    rw [List.foldl_cons, ih]
    simp only [List.map_cons, List.sum_cons, part004TotalsStep, Part004Totals.mk.injEq]
    refine ⟨by ring, by ring, by ring, by ring, by ring⟩

/-- Claim C3: for every invoice created via POST /api/invoices with a
non-empty item list, each grand total persisted on the tax_invoice header
equals the sum over all line items of the corresponding amount persisted
in the tax_invoice_details rows, separately per tax bucket: in the
part_004 revision the taxable, CGST, SGST, IGST and net totals, and in
the route.ts revision the taxable, CGST, SGST and net totals (that
revision persists no IGST bucket in the header or the details). The
header loop computes tax as taxable * gst_rate / 200 and the detail loop
as taxable * (gst_rate / 2) / 100, which agree in exact arithmetic. -/
theorem claim3_totals (inter : Bool) (items : List InvoiceItem) (hne : items ≠ []) :
    (routeGrandTotals inter items).grandTotalTaxableAmt
        = (items.map (fun it => (routeDetailRow inter it).taxable_amt)).sum
  ∧ (routeGrandTotals inter items).grandTotalCgstAmt
        = (items.map (fun it => (routeDetailRow inter it).cgst_amt)).sum
  ∧ (routeGrandTotals inter items).grandTotalSgstAmt
        = (items.map (fun it => (routeDetailRow inter it).sgst_amt)).sum
  ∧ (routeGrandTotals inter items).grandTotalAmt
        = (items.map (fun it => (routeDetailRow inter it).total_amount)).sum
  ∧ (part004GrandTotals inter items).grandTotalTaxableAmt
        = (items.map (fun it => (part004DetailRow inter it).taxable_amt)).sum
  ∧ (part004GrandTotals inter items).grandTotalCgstAmt
        = (items.map (fun it => (part004DetailRow inter it).cgst_amt)).sum
  ∧ (part004GrandTotals inter items).grandTotalSgstAmt
        = (items.map (fun it => (part004DetailRow inter it).sgst_amt)).sum
  ∧ (part004GrandTotals inter items).grandTotalIgstAmt
        = (items.map (fun it => (part004DetailRow inter it).igst_amount)).sum
  ∧ (part004GrandTotals inter items).grandTotalAmt
        = (items.map (fun it => (part004DetailRow inter it).total_amount)).sum := by
  have hr := routeTotals_foldl inter items
    { grandTotalTaxableAmt := 0, grandTotalCgstAmt := 0,
      grandTotalSgstAmt := 0, grandTotalAmt := 0 }
  have hp := part004Totals_foldl inter items
    { grandTotalTaxableAmt := 0, grandTotalCgstAmt := 0,
      grandTotalSgstAmt := 0, grandTotalIgstAmt := 0, grandTotalAmt := 0 }
  have e1 : (fun it => (routeDetailRow inter it).taxable_amt)
      = fun it => (routeHeaderLine inter it).taxableAmount :=
    funext fun it => (routeDetail_agrees_header inter it).1
  have e2 : (fun it => (routeDetailRow inter it).cgst_amt)
      = fun it => (routeHeaderLine inter it).cgstAmt :=
    funext fun it => (routeDetail_agrees_header inter it).2.1
  have e3 : (fun it => (routeDetailRow inter it).sgst_amt)
      = fun it => (routeHeaderLine inter it).sgstAmt :=
    funext fun it => (routeDetail_agrees_header inter it).2.2.1
  have e4 : (fun it => (routeDetailRow inter it).total_amount)
      = fun it => (routeHeaderLine inter it).totalAmount :=
    funext fun it => (routeDetail_agrees_header inter it).2.2.2.2
  have f1 : (fun it => (part004DetailRow inter it).taxable_amt)
      = fun it => (part004HeaderLine inter it).taxableAmount :=
    funext fun it => (part004Detail_agrees_header inter it).1
  have f2 : (fun it => (part004DetailRow inter it).cgst_amt)
      = fun it => (part004HeaderLine inter it).cgstAmt :=
    funext fun it => (part004Detail_agrees_header inter it).2.1
  have f3 : (fun it => (part004DetailRow inter it).sgst_amt)
      = fun it => (part004HeaderLine inter it).sgstAmt :=
    funext fun it => (part004Detail_agrees_header inter it).2.2.1
  have f4 : (fun it => (part004DetailRow inter it).igst_amount)
      = fun it => (part004HeaderLine inter it).igstAmt :=
    funext fun it => (part004Detail_agrees_header inter it).2.2.2.1
  have f5 : (fun it => (part004DetailRow inter it).total_amount)
      = fun it => (part004HeaderLine inter it).totalAmount :=
    funext fun it => (part004Detail_agrees_header inter it).2.2.2.2
  refine ⟨?_, ?_, ?_, ?_, ?_, ?_, ?_, ?_, ?_⟩
  · rw [e1, routeGrandTotals, hr]; simp
  · rw [e2, routeGrandTotals, hr]; simp
  · rw [e3, routeGrandTotals, hr]; simp
  · rw [e4, routeGrandTotals, hr]; simp
  · rw [f1, part004GrandTotals, hp]; simp
  · rw [f2, part004GrandTotals, hp]; simp
  · rw [f3, part004GrandTotals, hp]; simp
  · rw [f4, part004GrandTotals, hp]; simp
  · rw [f5, part004GrandTotals, hp]; simp

/-- Claim C3 witness: the totals statement evaluated at a two-item
interstate invoice; in the part_004 revision the header IGST total 270
equals the sum of the two detail IGST amounts. -/
theorem claim3_witness :
    ((part004GrandTotals true [⟨10, 100, 18⟩, ⟨1, 500, 18⟩]).grandTotalIgstAmt
        = ([⟨10, 100, 18⟩, ⟨1, 500, 18⟩].map
            (fun it => (part004DetailRow true it).igst_amount)).sum)
  ∧ ((routeGrandTotals true [⟨10, 100, 18⟩, ⟨1, 500, 18⟩]).grandTotalAmt
        = ([⟨10, 100, 18⟩, ⟨1, 500, 18⟩].map
            (fun it => (routeDetailRow true it).total_amount)).sum)
  ∧ (part004GrandTotals true [⟨10, 100, 18⟩, ⟨1, 500, 18⟩]).grandTotalIgstAmt = 270 := by
  have h := claim3_totals true [⟨10, 100, 18⟩, ⟨1, 500, 18⟩] (by simp)
  refine ⟨h.2.2.2.2.2.2.2.1, h.2.2.2.1, ?_⟩
  rw [h.2.2.2.2.2.2.2.1]
  norm_num [part004DetailRow]

/-- Claim C4: for every existing godown_stock row with quantity current,
a well-formed POST /api/stock subtract request fails with HTTP 400 and
the message Insufficient stock exactly when the requested quantity
exceeds current; in that case the stored quantity is unchanged, and
otherwise the request succeeds and the stored quantity becomes
current - q, which is never negative. -/
theorem claim4_subtract (godownExists materialExists : Nat → Bool)
    (stock : GodownStockTable) (g m : Nat) (q current : ℚ)
    (hg : g ≠ 0) (hm : m ≠ 0) (hq : 0 < q)
    (hge : godownExists g = true) (hme : materialExists m = true)
    (hrow : stock g m = some current) :
    ((stockPost godownExists materialExists stock g m q ("subtract")).1
        = .err 400 ("Insufficient stock") ↔ current < q)
  ∧ (current < q →
      (stockPost godownExists materialExists stock g m q ("subtract")).2 g m = some current)
  ∧ (q ≤ current →
      (stockPost godownExists materialExists stock g m q ("subtract")).1 = .ok (current - q)
      ∧ (stockPost godownExists materialExists stock g m q ("subtract")).2 g m
          = some (current - q)
      ∧ 0 ≤ current - q) := by
  have h0 : ¬(g = 0 ∨ m = 0 ∨ q = 0) := by
    push_neg
    exact ⟨hg, hm, ne_of_gt hq⟩
  have h1 : ¬ q ≤ 0 := not_le.mpr hq
  by_cases hlt : current - q < 0
  · have hcq : current < q := by linarith
    have hnle : ¬ q ≤ current := not_le.mpr hcq
    simp [stockPost, h0, h1, hge, hme, hrow, hlt, hcq, hnle]
  · have hqc : q ≤ current := by linarith
    have hnlt : ¬ current < q := not_lt.mpr hqc
    simp [stockPost, h0, h1, hge, hme, hrow, hlt, hnlt, hqc, updateStock]

/-- Claim C4 witness: the spec scenario, stock row (godown 1, material 5,
quantity 50) and a subtract of 60: the handler answers 400 Insufficient
stock and the row still holds 50. -/
theorem claim4_witness :
    ((stockPost (fun _ => true) (fun _ => true)
        (fun g2 m2 => if g2 = 1 ∧ m2 = 5 then some (50 : ℚ) else none)
        1 5 60 ("subtract")).1 = .err 400 ("Insufficient stock"))
  ∧ ((stockPost (fun _ => true) (fun _ => true)
        (fun g2 m2 => if g2 = 1 ∧ m2 = 5 then some (50 : ℚ) else none)
        1 5 60 ("subtract")).2 1 5 = some 50) := by
  have h := claim4_subtract (fun _ => true) (fun _ => true)
    (fun g2 m2 => if g2 = 1 ∧ m2 = 5 then some (50 : ℚ) else none)
    1 5 60 50 (by decide) (by decide) (by norm_num) rfl rfl (by norm_num)
  exact ⟨h.1.mpr (by norm_num), h.2.1 (by norm_num)⟩

/-- Claim C5: a well-formed POST /api/stock add request creates a new
godown_stock row with quantity q when none exists for the pair, and
updates the quantity to old + q when a row with quantity old exists. -/
theorem claim5_add (godownExists materialExists : Nat → Bool)
    (stock : GodownStockTable) (g m : Nat) (q : ℚ)
    (hg : g ≠ 0) (hm : m ≠ 0) (hq : 0 < q)
    (hge : godownExists g = true) (hme : materialExists m = true) :
    (stock g m = none →
      (stockPost godownExists materialExists stock g m q ("add")).1 = .ok q
      ∧ (stockPost godownExists materialExists stock g m q ("add")).2 g m = some q)
  ∧ (∀ old, stock g m = some old →
      (stockPost godownExists materialExists stock g m q ("add")).1 = .ok (old + q)
      ∧ (stockPost godownExists materialExists stock g m q ("add")).2 g m = some (old + q)) := by
  have h0 : ¬(g = 0 ∨ m = 0 ∨ q = 0) := by
    push_neg
    exact ⟨hg, hm, ne_of_gt hq⟩
  have h1 : ¬ q ≤ 0 := not_le.mpr hq
  constructor
  · intro hnone
    simp [stockPost, h0, h1, hge, hme, hnone, updateStock]
  · intro old hsome
    simp [stockPost, h0, h1, hge, hme, hsome, updateStock]

/-- Claim C5 witness: adding 20 to the missing pair (2, 7) creates a row
with quantity 20, and adding 20 to the pair (1, 5) holding 50 yields 70. -/
theorem claim5_witness :
    ((stockPost (fun _ => true) (fun _ => true)
        (fun g2 m2 => if g2 = 1 ∧ m2 = 5 then some (50 : ℚ) else none)
        2 7 20 ("add")).2 2 7 = some 20)
  ∧ ((stockPost (fun _ => true) (fun _ => true)
        (fun g2 m2 => if g2 = 1 ∧ m2 = 5 then some (50 : ℚ) else none)
        1 5 20 ("add")).2 1 5 = some 70) := by
  have h1 := claim5_add (fun _ => true) (fun _ => true)
    (fun g2 m2 => if g2 = 1 ∧ m2 = 5 then some (50 : ℚ) else none)
    2 7 20 (by decide) (by decide) (by norm_num) rfl rfl
  have h2 := claim5_add (fun _ => true) (fun _ => true)
    (fun g2 m2 => if g2 = 1 ∧ m2 = 5 then some (50 : ℚ) else none)
    1 5 20 (by decide) (by decide) (by norm_num) rfl rfl
  refine ⟨(h1.1 (by norm_num)).2, ?_⟩
  have := (h2.2 50 (by norm_num)).2
  rw [this]
  norm_num

/-- Claim C6: POST /api/stock/movements with movement type transfer
always answers a 400 client error when the source and destination godowns
coincide, for every quantity and material, leaving the stock table and
the audit tables untouched; it also answers 400 with the insufficient
source stock message, without changes, when the source row is missing or
holds less than the requested quantity; and in the remaining well-formed
case it decrements the source row by the quantity, increments the
destination row (inserting a fresh destination row with the quantity when
none exists), and records exactly one synthetic stock-out audit row for
the source godown, the material and the quantity. -/
theorem claim6_transfer (stock : GodownStockTable) (m from_g to_g : Nat) (q : ℚ) :
    (from_g = to_g →
      (∃ msg, (movementsPost stock ("transfer") m from_g to_g q).1 = .err 400 msg)
      ∧ (movementsPost stock ("transfer") m from_g to_g q).2.1 = stock
      ∧ (movementsPost stock ("transfer") m from_g to_g q).2.2 = [])
  ∧ (m ≠ 0 → 0 < q → from_g ≠ 0 → to_g ≠ 0 → from_g ≠ to_g →
      (stock from_g m = none →
        (movementsPost stock ("transfer") m from_g to_g q).1
            = .err 400 ("Insufficient stock in source godown")
        ∧ (movementsPost stock ("transfer") m from_g to_g q).2.1 = stock
        ∧ (movementsPost stock ("transfer") m from_g to_g q).2.2 = [])
      ∧ (∀ sourceQty, stock from_g m = some sourceQty → sourceQty < q →
        (movementsPost stock ("transfer") m from_g to_g q).1
            = .err 400 ("Insufficient stock in source godown")
        ∧ (movementsPost stock ("transfer") m from_g to_g q).2.1 = stock
        ∧ (movementsPost stock ("transfer") m from_g to_g q).2.2 = [])
      ∧ (∀ sourceQty, stock from_g m = some sourceQty → q ≤ sourceQty →
        (movementsPost stock ("transfer") m from_g to_g q).1
            = .ok ("transfer completed successfully")
        ∧ (movementsPost stock ("transfer") m from_g to_g q).2.1 from_g m
            = some (sourceQty - q)
        ∧ (stock to_g m = none →
            (movementsPost stock ("transfer") m from_g to_g q).2.1 to_g m = some q)
        ∧ (∀ destQty, stock to_g m = some destQty →
            (movementsPost stock ("transfer") m from_g to_g q).2.1 to_g m
              = some (destQty + q))
        ∧ (movementsPost stock ("transfer") m from_g to_g q).2.2
            = [{ godown_id := from_g, raw_material_id := m, raw_material_quantity := q }])) := by
  constructor
  · intro heq
    by_cases hmz : m = 0
    · exact ⟨⟨"Missing required fields", by simp [movementsPost, hmz]⟩,
        by simp [movementsPost, hmz], by simp [movementsPost, hmz]⟩
    · by_cases hqz : q = 0
      · exact ⟨⟨"Missing required fields", by simp [movementsPost, hqz]⟩,
          by simp [movementsPost, hqz], by simp [movementsPost, hqz]⟩
      · by_cases hqn : q ≤ 0
        · exact ⟨⟨"Quantity must be greater than 0",
              by simp [movementsPost, hmz, hqz, hqn]⟩,
            by simp [movementsPost, hmz, hqz, hqn],
            by simp [movementsPost, hmz, hqz, hqn]⟩
        · by_cases hfz : from_g = 0
          · exact ⟨⟨"Both source and destination godowns required for transfer",
                by simp [movementsPost, hmz, hqz, hqn, hfz]⟩,
              by simp [movementsPost, hmz, hqz, hqn, hfz],
              by simp [movementsPost, hmz, hqz, hqn, hfz]⟩
          · have htz : ¬ to_g = 0 := heq ▸ hfz
            exact ⟨⟨"Source and destination godowns cannot be the same",
                by simp [movementsPost, hmz, hqz, hqn, hfz, htz, heq]⟩,
              by simp [movementsPost, hmz, hqz, hqn, hfz, htz, heq],
              by simp [movementsPost, hmz, hqz, hqn, hfz, htz, heq]⟩
  · intro hm hq hf ht hne
    have hq0 : ¬ q = 0 := hq.ne'
    have h1 : ¬ q ≤ 0 := not_le.mpr hq
    refine ⟨?_, ?_, ?_⟩
    · intro hnone
      refine ⟨?_, ?_, ?_⟩ <;> simp [movementsPost, hm, hq0, h1, hf, ht, hne, hnone]
    · intro sourceQty hsome hlt
      refine ⟨?_, ?_, ?_⟩ <;>
        simp [movementsPost, hm, hq0, h1, hf, ht, hne, hsome, hlt]
    · intro sourceQty hsome hle
      have hnlt : ¬ sourceQty < q := not_lt.mpr hle
      have hto : ¬(to_g = from_g ∧ m = m) := by
        rintro ⟨h, -⟩
        exact hne h.symm
      have hne2 : ¬ to_g = from_g := fun h => hne h.symm
      refine ⟨?_, ?_, ?_, ?_, ?_⟩
      · simp [movementsPost, hm, hq0, h1, hf, ht, hne, hsome, hnlt]
      · cases hdest : stock to_g m with
        | none =>
          simp [movementsPost, hm, hq0, h1, hf, ht, hne, hsome, hnlt,
            updateStock, hto, hne2, hdest]
        | some destQty =>
          simp [movementsPost, hm, hq0, h1, hf, ht, hne, hsome, hnlt,
            updateStock, hto, hne2, hdest]
      · intro hdest
        simp [movementsPost, hm, hq0, h1, hf, ht, hne, hsome, hnlt,
          updateStock, hto, hne2, hdest]
      · intro destQty hdest
        simp [movementsPost, hm, hq0, h1, hf, ht, hne, hsome, hnlt,
          updateStock, hto, hne2, hdest]
      · simp [movementsPost, hm, hq0, h1, hf, ht, hne, hsome, hnlt]

/-- Claim C6 witness: with a single row (godown 1, material 5,
quantity 50), a same-godown transfer of 10 from godown 1 to godown 1
fails with a 400 error, and a transfer of 20 from godown 1 to godown 2
succeeds, leaving 30 at the source, 20 at the new destination row, and
one audit row. -/
theorem claim6_witness :
    (∃ msg, (movementsPost
        (fun g2 m2 => if g2 = 1 ∧ m2 = 5 then some (50 : ℚ) else none)
        "transfer" 5 1 1 10).1 = .err 400 msg)
  ∧ ((movementsPost
        (fun g2 m2 => if g2 = 1 ∧ m2 = 5 then some (50 : ℚ) else none)
        "transfer" 5 1 2 20).2.1 1 5 = some 30)
  ∧ ((movementsPost
        (fun g2 m2 => if g2 = 1 ∧ m2 = 5 then some (50 : ℚ) else none)
        "transfer" 5 1 2 20).2.1 2 5 = some 20)
  ∧ ((movementsPost
        (fun g2 m2 => if g2 = 1 ∧ m2 = 5 then some (50 : ℚ) else none)
        "transfer" 5 1 2 20).2.2
      = [{ godown_id := 1, raw_material_id := 5, raw_material_quantity := 20 }]) := by
  have hsame := (claim6_transfer
    (fun g2 m2 => if g2 = 1 ∧ m2 = 5 then some (50 : ℚ) else none) 5 1 1 10).1 rfl
  have hok := ((claim6_transfer
    (fun g2 m2 => if g2 = 1 ∧ m2 = 5 then some (50 : ℚ) else none) 5 1 2 20).2
      (by decide) (by norm_num) (by decide) (by decide) (by decide)).2.2
      50 (by norm_num) (by norm_num)
  refine ⟨hsame.1, ?_, hok.2.2.1 (by norm_num), hok.2.2.2.2⟩
  have h30 := hok.2.1
  rw [h30]
  norm_num

/-- Claim C7: the e-invoice cancel handler rejects with a 400 client
error, without attempting the external cancel call and without changing
the invoice row, whenever the stored irn_no is empty or the status is
already cancelled; the external cancel call is attempted exactly when an
IRN exists and the status is not cancelled, and the guards never write to
the invoice row. -/
theorem claim7_cancel (inv : TaxInvoiceRow) :
    (inv.irn_no = "" →
      einvoiceDelete (some inv) = (.err 400 ("Cannot cancel invoice without IRN"), some inv))
  ∧ (inv.irn_no ≠ "" → inv.status = "cancelled" →
      einvoiceDelete (some inv) = (.err 400 ("Invoice already cancelled"), some inv))
  ∧ ((∃ irn, (einvoiceDelete (some inv)).1 = .attemptCancel irn)
      ↔ inv.irn_no ≠ "" ∧ inv.status ≠ "cancelled")
  ∧ (einvoiceDelete (some inv)).2 = some inv := by
  refine ⟨?_, ?_, ?_, ?_⟩
  · intro h
    simp [einvoiceDelete, h]
  · intro h1 h2
    simp [einvoiceDelete, h1, h2]
  · constructor
    · rintro ⟨irn, hirn⟩
      by_cases h1 : inv.irn_no = ""
      · simp [einvoiceDelete, h1] at hirn
      · by_cases h2 : inv.status = "cancelled"
        · simp [einvoiceDelete, h1, h2] at hirn
        · exact ⟨h1, h2⟩
    · rintro ⟨h1, h2⟩
      exact ⟨inv.irn_no, by simp [einvoiceDelete, h1, h2]⟩
  · by_cases h1 : inv.irn_no = ""
    · simp [einvoiceDelete, h1]
    · by_cases h2 : inv.status = "cancelled"
      · simp [einvoiceDelete, h1, h2]
      · simp [einvoiceDelete, h1, h2]

/-- Claim C7 witness: an invoice with an empty irn_no is rejected with
the message Cannot cancel invoice without IRN and left unchanged, while
an invoice with IRN IRN123 in generated status reaches the external
cancel attempt. -/
theorem claim7_witness :
    einvoiceDelete (some { irn_no := "", status := "generated" })
        = (.err 400 ("Cannot cancel invoice without IRN"),
           some { irn_no := "", status := "generated" })
  ∧ (∃ irn, (einvoiceDelete (some { irn_no := "IRN123", status := "generated" })).1
        = .attemptCancel irn) := by
  refine ⟨(claim7_cancel { irn_no := "", status := "generated" }).1 rfl, ?_⟩
  exact (claim7_cancel { irn_no := "IRN123", status := "generated" }).2.2.1.mpr
    ⟨by decide, by decide⟩

/-- Claim C8: the generate revision of src/unnamed/part_002 rejects every
found invoice whose grand total is below 50000 with a 400 error before
the external call, while the revision of
src/app/api/invoices/[id]/einvoice/route.ts never produces that
rejection and its outcome does not depend on the grand total at all; on
a found invoice below the threshold with well-formed settings the two
revisions therefore disagree. -/
theorem claim8_threshold (inp : GenInput)
    (hfound : inp.invoiceFound = true) (hamt : inp.grand_total_amt < 50000) :
    part002GeneratePost inp = .err 400 ("E-Invoice not required for amounts below ₹50,000")
  ∧ (∀ inp2 : GenInput, einvoiceRouteGeneratePost inp2
        ≠ .err 400 ("E-Invoice not required for amounts below ₹50,000"))
  ∧ (∀ inp2 : GenInput, ∀ a1 a2 : ℚ,
      einvoiceRouteGeneratePost { inp2 with grand_total_amt := a1 }
        = einvoiceRouteGeneratePost { inp2 with grand_total_amt := a2 })
  ∧ (inp.settingsPresent ("company_gstin") = true →
     inp.settingsPresent ("company_legal_name") = true →
       einvoiceRouteGeneratePost inp = .proceed
       ∧ part002GeneratePost inp ≠ einvoiceRouteGeneratePost inp) := by
  have hpart : part002GeneratePost inp
      = .err 400 ("E-Invoice not required for amounts below ₹50,000") := by
    simp [part002GeneratePost, hfound, hamt]
  refine ⟨hpart, ?_, ?_, ?_⟩
  · intro inp2
    by_cases h1 : inp2.invoiceFound
    · by_cases h2 : inp2.settingsPresent ("company_gstin")
      · by_cases h3 : inp2.settingsPresent ("company_legal_name")
        · simp [einvoiceRouteGeneratePost, h1, h2, h3]
        · simp [einvoiceRouteGeneratePost, h1, h2, h3]
      · simp [einvoiceRouteGeneratePost, h1, h2]
    · simp [einvoiceRouteGeneratePost, h1]
  · intro inp2 a1 a2
    simp [einvoiceRouteGeneratePost]
  · intro hs1 hs2
    have hroute : einvoiceRouteGeneratePost inp = .proceed := by
      simp [einvoiceRouteGeneratePost, hfound, hs1, hs2]
    refine ⟨hroute, ?_⟩
    rw [hpart, hroute]
    simp

/-- Claim C8 witness: a found invoice with grand total 40000, one line
item, all settings present and the API enabled: the part_002 revision
answers the threshold rejection and the route.ts revision proceeds. -/
theorem claim8_witness :
    part002GeneratePost ⟨true, 40000, 1, (fun _ => true), true⟩
      = .err 400 ("E-Invoice not required for amounts below ₹50,000")
  ∧ einvoiceRouteGeneratePost ⟨true, 40000, 1, (fun _ => true), true⟩ = .proceed := by
  have h := claim8_threshold ⟨true, 40000, 1, (fun _ => true), true⟩ rfl (by norm_num)
  exact ⟨h.1, (h.2.2.2 rfl rfl).1⟩

/-- Claim C9: one call to authenticate performs the external
authentication request exactly when no usable cached token exists, that
is when the token or expiry field is unset or falsy or the current time
has reached the stored expiry; a call made while the cached token is
within its window returns the state unchanged and makes no request; and
a fresh authentication stores the provider token with expiry
now + expires_in * 1000 - 60000 milliseconds. Since the client state is
threaded through each call unchanged except by authenticate itself, the
statement applies to every call of any call sequence. -/
theorem claim9_auth_cache (s : GSTEInvoiceAPIState) (now : Int) (resp : GSTAuthResponse) :
    ((authenticate s now resp).2 = true
      ↔ ¬(∃ t e, s.accessToken = some t ∧ t ≠ "" ∧ s.tokenExpiry = some e ∧ e ≠ 0 ∧ now < e))
  ∧ (∀ t e, s.accessToken = some t → t ≠ "" → s.tokenExpiry = some e → e ≠ 0 → now < e →
      authenticate s now resp = (s, false))
  ∧ ((authenticate s now resp).2 = true →
      (authenticate s now resp).1.accessToken = some resp.access_token
      ∧ (authenticate s now resp).1.tokenExpiry
          = some (now + resp.expires_in * 1000 - 60000)) := by
  have hvalid : cachedTokenValid s now = true
      ↔ (∃ t e, s.accessToken = some t ∧ t ≠ "" ∧ s.tokenExpiry = some e ∧ e ≠ 0 ∧ now < e) := by
    cases hA : s.accessToken with
    | none => simp [cachedTokenValid, hA]
    | some t =>
      cases hE : s.tokenExpiry with
      | none => simp [cachedTokenValid, hA, hE]
      | some e =>
        simp only [cachedTokenValid, hA, hE, Bool.and_eq_true, bne_iff_ne, ne_eq,
          decide_eq_true_eq, Option.some.injEq]
        constructor
        · rintro ⟨⟨ht, he⟩, hlt⟩
          exact ⟨t, e, rfl, ht, rfl, he, hlt⟩
        · rintro ⟨t2, e2, h1, h2, h3, h4, h5⟩
          subst h1
          subst h3
          exact ⟨⟨h2, h4⟩, h5⟩
  refine ⟨?_, ?_, ?_⟩
  · by_cases hv : cachedTokenValid s now
    · have hfalse : (authenticate s now resp).2 = false := by
        simp [authenticate, hv]
      rw [hfalse]
      simp only [Bool.false_eq_true, false_iff, not_not]
      exact hvalid.mp hv
    · have hno : ¬(∃ t e, s.accessToken = some t ∧ t ≠ "" ∧ s.tokenExpiry = some e
          ∧ e ≠ 0 ∧ now < e) := fun h => hv (hvalid.mpr h)
      have htrue : (authenticate s now resp).2 = true := by
        simp [authenticate, hv]
      rw [htrue]
      simp only [true_iff]
      exact hno
  · intro t e h1 h2 h3 h4 h5
    have hv : cachedTokenValid s now = true := hvalid.mpr ⟨t, e, h1, h2, h3, h4, h5⟩
    simp [authenticate, hv]
  · intro hcall
    by_cases hv : cachedTokenValid s now
    · simp [authenticate, hv] at hcall
    · simp [authenticate, hv]

/-- Claim C9 witness: from an empty cache at time 0 with expires_in 3600
seconds, authenticate makes the external call and stores expiry 3540000;
a second call at time 1000000, inside the window, returns the cached
state unchanged and makes no call. -/
theorem claim9_witness :
    ((authenticate { accessToken := none, tokenExpiry := none } 0
        { access_token := "tok", expires_in := 3600 }).2 = true)
  ∧ ((authenticate { accessToken := none, tokenExpiry := none } 0
        { access_token := "tok", expires_in := 3600 }).1.tokenExpiry = some 3540000)
  ∧ (authenticate { accessToken := some ("tok"), tokenExpiry := some 3540000 } 1000000
        { access_token := "tok2", expires_in := 3600 })
      = ({ accessToken := some ("tok"), tokenExpiry := some 3540000 }, false) := by
  have h1 := claim9_auth_cache { accessToken := none, tokenExpiry := none } 0
    { access_token := "tok", expires_in := 3600 }
  have hmade : (authenticate { accessToken := none, tokenExpiry := none } 0
      { access_token := "tok", expires_in := 3600 }).2 = true := by
    apply h1.1.mpr
    rintro ⟨t, e, h, -⟩
    simp at h
  have h2 := claim9_auth_cache { accessToken := some ("tok"), tokenExpiry := some 3540000 }
    1000000 { access_token := "tok2", expires_in := 3600 }
  refine ⟨hmade, ?_, ?_⟩
  · have := (h1.2.2 hmade).2
    rw [this]
    norm_num
  · exact h2.2.1 ("tok") 3540000 rfl (by decide) rfl (by decide) (by decide)

/-- Claim C10: the hasPermission revision bundled in src/lib/gst-api.ts
decides from the role string alone: two users with equal roles receive
identical answers for every module and action whatever their permissions
lists hold; admin is always allowed, manager exactly for non-delete
actions on SALES, INVENTORY and REPORTS, and every other role exactly
for read on SALES. The revision in src/lib/auth.ts instead consults the
per-department permissions list: two payloads differing only in that
list can receive different answers. -/
theorem claim10_permissions :
    (∀ u1 u2 : GstApiUser, u1.role = u2.role →
      ∀ m a, hasPermission u1 m a = hasPermission u2 m a)
  ∧ (∀ (u : GstApiUser) m a, u.role = "admin" → hasPermission u m a = true)
  ∧ (∀ (u : GstApiUser) m a, u.role = "manager" →
      (hasPermission u m a = true ↔ a ≠ .delete ∧ m ∈ ["SALES", "INVENTORY", "REPORTS"]))
  ∧ (∀ (u : GstApiUser) m a, u.role ≠ "admin" → u.role ≠ "manager" →
      (hasPermission u m a = true ↔ a = .read ∧ m = "SALES"))
  ∧ (∃ u1 u2 : JWTPayload, u1.userId = u2.userId ∧ u1.username = u2.username
      ∧ u1.fullName = u2.fullName
      ∧ authHasPermission u1 ("SALES") .read ≠ authHasPermission u2 ("SALES") .read) := by
  refine ⟨?_, ?_, ?_, ?_, ?_⟩
  · intro u1 u2 hrole m a
    simp [hasPermission, hrole]
  · intro u m a h
    simp [hasPermission, h]
  · intro u m a h
    have hna : u.role ≠ "admin" := by
      rw [h]
      decide
    cases a <;> simp [hasPermission, h, hna, List.contains] <;> tauto
  · intro u m a h1 h2
    cases a <;> simp [hasPermission, h1, h2] <;> tauto
  · refine ⟨⟨1, "u", "u", [⟨1, "SALES", true, false, false⟩]⟩,
      ⟨1, "u", "u", []⟩, rfl, rfl, rfl, ?_⟩
    decide

/-- Claim C10 witness: two gst-api users sharing the manager role but
with different permissions lists both pass a SALES write check and both
fail a SALES delete check. -/
theorem claim10_witness :
    (hasPermission ⟨1, "a", "manager", ["X"]⟩ "SALES" .write
      = hasPermission ⟨2, "b", "manager", []⟩ "SALES" .write)
  ∧ (hasPermission ⟨1, "a", "manager", ["X"]⟩ "SALES" .delete = false)
  ∧ (hasPermission ⟨1, "a", "manager", ["X"]⟩ "SALES" .write = true) := by
  have h := claim10_permissions
  refine ⟨h.1 ⟨1, "a", "manager", ["X"]⟩ ⟨2, "b", "manager", []⟩ rfl ("SALES") .write,
    ?_, ?_⟩
  · have hiff := h.2.2.1 ⟨1, "a", "manager", ["X"]⟩ "SALES" .delete rfl
    by_cases hb : hasPermission ⟨1, "a", "manager", ["X"]⟩ "SALES" .delete
    · exact absurd (hiff.mp hb).1 (by decide)
    · simpa using hb
  · exact (h.2.2.1 ⟨1, "a", "manager", ["X"]⟩ "SALES" .write rfl).mpr
      ⟨by decide, by decide⟩
